import Mathlib

/-!
Verification of the payment-service repository: a shallow embedding of the
status-mapping, storage, reconciliation-service and webhook-processing code,
with theorems settling the specification's claims.

Conventions of the embedding:
* Python `str` becomes `String`; optional dict fields become `Option String`.
* `datetime` timestamps become `Nat` (only ordering/equality matters).
* Monetary amounts become `Int` (no float arithmetic is exercised by any claim).
* Python dict lookups with a default (`status_mapping.get(ts, default)`) become
  if-chains over the dict's keys, extensionally equal to the lookup.
* Raised exceptions become `Except` errors; functions that swallow all
  exceptions and return a value become total functions returning that value.
* Network calls are parameters: the gateway's HTTP response to a status query
  is a `GatewayStatusResp` argument, and the SHA-512 hex digest is an abstract
  `String → String` argument.
-/

/-- Python's `str.lower()` restricted to the ASCII range (every status key the
code compares against is plain ASCII). -/
def pyLower (s : String) : String := ⟨s.data.map Char.toLower⟩

/-- `domain/models.py` `PaymentStatus(str, Enum)`. -/
inductive PaymentStatus where
  | PENDING
  | PROCESSING
  | SUCCESS
  | FAILED
  | CANCELED
  | REFUNDED
  | EXPIRED
deriving DecidableEq, Repr

/-- The `str` value of each enum member (used in f-string error messages). -/
def PaymentStatus.value : PaymentStatus → String
  | .PENDING => "pending"
  | .PROCESSING => "processing"
  | .SUCCESS => "success"
  | .FAILED => "failed"
  | .CANCELED => "canceled"
  | .REFUNDED => "refunded"
  | .EXPIRED => "expired"

namespace MidtransAdapter

/-- The `status_mapping` dict lookup of `MidtransAdapter.get_payment_status`
(midtrans_adapter.py lines 484-495): exact-key lookup on the raw
`transaction_status` (which may be absent, i.e. `none`), defaulting to
PENDING.  Note: this path does NOT lower-case the transaction status. -/
def mapTransactionStatus (ts : Option String) : PaymentStatus :=
  if ts = some "capture" then .SUCCESS
  else if ts = some "settlement" then .SUCCESS
  else if ts = some "pending" then .PENDING
  else if ts = some "deny" then .FAILED
  else if ts = some "cancel" then .CANCELED
  else if ts = some "expire" then .EXPIRED
  else if ts = some "refund" then .REFUNDED
  else if ts = some "partial_refund" then .REFUNDED
  else .PENDING

/-- The 200-response body of `MidtransAdapter.get_payment_status`
(midtrans_adapter.py lines 472-497): fraud_status "deny" overrides to FAILED
before the transaction-status table is consulted. -/
def mapQueryStatus (ts fs : Option String) : PaymentStatus :=
  if fs = some "deny" then .FAILED
  else mapTransactionStatus ts

/-- The `status_mapping` of `MidtransAdapter.handle_notification`
(midtrans_adapter.py lines 366-384): the transaction status is defaulted to ""
by the caller and LOWER-CASED before lookup; `fraud_status` is never read on
this path. -/
def mapNotificationStatus (ts : String) : PaymentStatus :=
  let t := pyLower ts
  if t = "pending" then .PENDING
  else if t = "capture" then .SUCCESS
  else if t = "settlement" then .SUCCESS
  else if t = "deny" then .FAILED
  else if t = "cancel" then .CANCELED
  else if t = "expire" then .EXPIRED
  else if t = "refund" then .REFUNDED
  else if t = "partial_refund" then .REFUNDED
  else .PENDING

end MidtransAdapter

namespace WebhookHandler

/-- `WebhookHandler.map_status_to_payment_status` (webhook_handler.py lines
54-72): fraud "deny" first, then a lower-cased dict lookup defaulting to
PENDING. -/
def map_status_to_payment_status (ts : String) (fs : Option String) : PaymentStatus :=
  if fs = some "deny" then .FAILED
  else
    let t := pyLower ts
    if t = "capture" then .SUCCESS
    else if t = "settlement" then .SUCCESS
    else if t = "pending" then .PENDING
    else if t = "deny" then .FAILED
    else if t = "cancel" then .CANCELED
    else if t = "expire" then .EXPIRED
    else if t = "refund" then .REFUNDED
    else if t = "partial_refund" then .REFUNDED
    else .PENDING

end WebhookHandler

/-- `adapters/db.py` `PaymentRecord` row (the columns the domain logic reads;
the gateway-artifact columns token/redirect_url/qr_code_url/... are folded
into `additional_data`, the serialized metadata column). -/
structure PaymentRecord where
  payment_id : String
  order_id : String
  status : PaymentStatus
  amount : Int
  transaction_time : Nat
  payment_url : Option String
  created_at : Nat
  updated_at : Nat
  additional_data : Option String
deriving DecidableEq, Repr

/-- `domain/models.py` `PaymentResponse` (metadata abstracted to the same
serialized form as the record column). -/
structure PaymentResponse where
  id : String
  order_id : String
  transaction_id : String
  amount : Int
  status : PaymentStatus
  payment_url : Option String
  created_at : Nat
  updated_at : Nat
  metadata : Option String
deriving DecidableEq, Repr

/-- Service-level error taxonomy: each constructor stands for one family of
`ValueError`/`HTTPException` messages raised in `domain/services.py` and
`adapters/`.  `message` below renders the exact f-string. -/
inductive ServiceError where
  | notFound (payment_id : String)
  | invalidState (op : String) (current : PaymentStatus)
  | gatewayError (msg : String)
  | validationError (msg : String)
deriving DecidableEq, Repr

/-- The f-string carried by each raised error. -/
def ServiceError.message : ServiceError → String
  | .notFound pid => "Payment with ID " ++ pid ++ " not found"
  | .invalidState op st => "Cannot " ++ op ++ " payment with status: " ++ st.value
  | .gatewayError m => m
  | .validationError m => m

namespace DatabaseAdapter

/-- `DatabaseAdapter.get_payment` (db.py lines 188-203):
`query.filter_by(payment_id=...).first()`; `payment_id` is the primary key. -/
def get_payment (db : List PaymentRecord) (pid : String) : Option PaymentRecord :=
  db.find? (·.payment_id = pid)

/-- The per-row effect of `DatabaseAdapter.update_payment_status` (db.py lines
205-224): set `status` and refresh `updated_at` on the row with the given
primary key. -/
def applyStatusUpdate (pid : String) (st : PaymentStatus) (now : Nat)
    (r : PaymentRecord) : PaymentRecord :=
  if r.payment_id = pid then { r with status := st, updated_at := now } else r

/-- `DatabaseAdapter.update_payment_status` (db.py lines 205-224): raises
`ValueError` (not-found) when no row has the id, else updates in place. -/
def update_payment_status (db : List PaymentRecord) (pid : String)
    (st : PaymentStatus) (now : Nat) : Except ServiceError (List PaymentRecord) :=
  if (db.find? (·.payment_id = pid)).isSome then
    .ok (db.map (applyStatusUpdate pid st now))
  else
    .error (.notFound pid)

/-- `DatabaseAdapter.save_payment` (db.py lines 131-186): upsert keyed by
`payment_id` — an existing row is overwritten field by field (its `created_at`
is NOT touched, `updated_at` is refreshed to now); otherwise a new row is
inserted with caller-supplied timestamps. -/
def save_payment (db : List PaymentRecord) (p : PaymentResponse) (now : Nat) :
    List PaymentRecord :=
  if (db.find? (·.payment_id = p.id)).isSome then
    db.map fun r =>
      if r.payment_id = p.id then
        { r with status := p.status, amount := p.amount,
                 transaction_time := p.created_at, payment_url := p.payment_url,
                 updated_at := now, additional_data := p.metadata }
      else r
  else
    db ++ [{ payment_id := p.id, order_id := p.order_id, status := p.status,
             amount := p.amount, transaction_time := p.created_at,
             payment_url := p.payment_url, created_at := p.created_at,
             updated_at := p.updated_at, additional_data := p.metadata }]

/-- Insertion step of the `ORDER BY created_at DESC` result order (newest
first) used by `get_payments_by_order`. -/
def insertByCreatedDesc (r : PaymentRecord) :
    List PaymentRecord → List PaymentRecord
  | [] => [r]
  | x :: xs =>
    if x.created_at ≤ r.created_at then r :: x :: xs
    else x :: insertByCreatedDesc r xs

/-- Sort newest-first by `created_at` (insertion sort — one faithful
realisation of the SQL ordering). -/
def sortByCreatedDesc : List PaymentRecord → List PaymentRecord
  | [] => []
  | x :: xs => insertByCreatedDesc x (sortByCreatedDesc xs)

/-- `DatabaseAdapter.get_payments_by_order` (db.py lines 226-238): all rows of
the order, newest first. -/
def get_payments_by_order (db : List PaymentRecord) (oid : String) :
    List PaymentRecord :=
  sortByCreatedDesc (db.filter (·.order_id = oid))

/-- `DatabaseAdapter._payment_record_to_response` (db.py lines 98-129). -/
def record_to_response (r : PaymentRecord) : PaymentResponse :=
  { id := r.payment_id, order_id := r.order_id, transaction_id := r.payment_id,
    amount := r.amount, status := r.status, payment_url := r.payment_url,
    created_at := r.created_at, updated_at := r.updated_at,
    metadata := r.additional_data }

end DatabaseAdapter

/-- The remote gateway's answer to one `GET /v2/{order_id}/status` call:
an HTTP 200 with a JSON body carrying optional `transaction_status` /
`fraud_status` fields, a non-200 response, or a raised exception
(network error / timeout / malformed body). -/
inductive GatewayStatusResp where
  | ok (transaction_status : Option String) (fraud_status : Option String)
  | httpError (code : Nat)
  | exn
deriving DecidableEq, Repr

/-- `resp` is a failed query (anything but a 200 body). -/
def GatewayStatusResp.isFailure : GatewayStatusResp → Bool
  | .ok _ _ => false
  | .httpError _ => true
  | .exn => true

namespace MidtransAdapter

/-- `MidtransAdapter.get_payment_status` (midtrans_adapter.py lines 455-508),
as a function of the gateway's response: a 200 body goes through the mapping
table; a 404, any other non-200, and any exception all degrade to PENDING —
this port never raises. -/
def get_payment_status (resp : GatewayStatusResp) : PaymentStatus :=
  match resp with
  | .ok ts fs => mapQueryStatus ts fs
  | .httpError _ => .PENDING
  | .exn => .PENDING

/-- The success path of `MidtransAdapter.create_payment` (midtrans_adapter.py
lines 93-179): validation errors before any network call; on a 201 from the
gateway the response carries `id = "payment-" + order_id`, status PENDING and
both timestamps set to the transaction time.  `redirect_url` stands for the
gateway's returned checkout artifacts (kept in `payment_url`/metadata). -/
def create_payment (order_id : String) (amount : Int)
    (redirect_url : Option String) (now : Nat) :
    Except ServiceError PaymentResponse :=
  if order_id = "" then .error (.validationError "Order ID is required")
  else if amount ≤ 0 then .error (.validationError "Amount must be greater than 0")
  else .ok { id := "payment-" ++ order_id, order_id := order_id,
             transaction_id := order_id, amount := amount, status := .PENDING,
             payment_url := redirect_url, created_at := now, updated_at := now,
             metadata := redirect_url }

end MidtransAdapter

namespace PaymentService

/-- Result of `PaymentService.get_payment`, together with the effect trace the
frame claims talk about: the store after the call, whether the gateway was
queried, and whether a storage write happened. -/
structure GetResult where
  payment : Option PaymentResponse
  db : List PaymentRecord
  gatewayQueried : Bool
  wrote : Bool
deriving DecidableEq, Repr

/-- `PaymentService.get_payment` (services.py lines 38-70): read-with-refresh.
Loads by id; when the stored status is PENDING or PROCESSING it queries the
gateway (response `resp`), persists a differing mapped status and re-reads the
row; an exception inside the refresh block is swallowed and the stored row is
returned as-is. -/
def get_payment (db : List PaymentRecord) (pid : String)
    (resp : GatewayStatusResp) (now : Nat) : GetResult :=
  match DatabaseAdapter.get_payment db pid with
  | none => ⟨none, db, false, false⟩
  | some p =>
    if p.status = .PENDING ∨ p.status = .PROCESSING then
      let latest := MidtransAdapter.get_payment_status resp
      if latest ≠ p.status then
        match DatabaseAdapter.update_payment_status db p.payment_id latest now with
        | .ok db' =>
          ⟨(DatabaseAdapter.get_payment db' p.payment_id).map
              DatabaseAdapter.record_to_response, db', true, true⟩
        | .error _ =>
          ⟨some (DatabaseAdapter.record_to_response p), db, true, false⟩
      else
        ⟨some (DatabaseAdapter.record_to_response p), db, true, false⟩
    else
      ⟨some (DatabaseAdapter.record_to_response p), db, false, false⟩

instance {ε α : Type} [DecidableEq ε] [DecidableEq α] : DecidableEq (Except ε α) :=
  fun x y =>
    match x, y with
    | .ok a, .ok b =>
      if h : a = b then .isTrue (by rw [h])
      else .isFalse (by intro hc; cases hc; exact h rfl)
    | .ok _, .error _ => .isFalse (by intro hc; cases hc)
    | .error _, .ok _ => .isFalse (by intro hc; cases hc)
    | .error e, .error f =>
      if h : e = f then .isTrue (by rw [h])
      else .isFalse (by intro hc; cases hc; exact h rfl)

/-- Result of `PaymentService.get_payment_status`. -/
structure StatusResult where
  result : Except ServiceError PaymentStatus
  db : List PaymentRecord
deriving DecidableEq, Repr

/-- `PaymentService.get_payment_status` (services.py lines 72-94): force-check.
Always queries the gateway; persists and returns a differing mapped status; an
exception after the query (only the storage write can raise here, since the
gateway port returns PENDING on failure) is swallowed and the stored status is
returned. -/
def get_payment_status (db : List PaymentRecord) (pid : String)
    (resp : GatewayStatusResp) (now : Nat) : StatusResult :=
  match DatabaseAdapter.get_payment db pid with
  | none => ⟨.error (.notFound pid), db⟩
  | some p =>
    let latest := MidtransAdapter.get_payment_status resp
    if latest ≠ p.status then
      match DatabaseAdapter.update_payment_status db pid latest now with
      | .ok db' => ⟨.ok latest, db'⟩
      | .error _ => ⟨.ok p.status, db⟩
    else
      ⟨.ok p.status, db⟩

/-- Result of a cancel/refund call: the raised-or-returned outcome, the store
afterwards, and whether the gateway was reached. -/
structure MutResult where
  result : Except ServiceError (Option PaymentResponse)
  db : List PaymentRecord
  gatewayCalled : Bool
deriving DecidableEq, Repr

/-- `PaymentService.cancel_payment` (services.py lines 96-115).  `gw` is the
outcome of the adapter's gateway cancel call (`.error m` for the `ValueError`
the adapter raises on a request failure); the state guard runs before it. -/
def cancel_payment (db : List PaymentRecord) (pid : String)
    (gw : Except String Unit) (now : Nat) : MutResult :=
  match DatabaseAdapter.get_payment db pid with
  | none => ⟨.error (.notFound pid), db, false⟩
  | some p =>
    if p.status = .PENDING ∨ p.status = .PROCESSING then
      match gw with
      | .error m => ⟨.error (.gatewayError m), db, true⟩
      | .ok _ =>
        match DatabaseAdapter.update_payment_status db pid .CANCELED now with
        | .ok db' =>
          ⟨.ok ((DatabaseAdapter.get_payment db' pid).map
              DatabaseAdapter.record_to_response), db', true⟩
        | .error e => ⟨.error e, db, true⟩
    else
      ⟨.error (.invalidState "cancel" p.status), db, false⟩

/-- `PaymentService.refund_payment` (services.py lines 117-136): same shape as
cancel, permitted only from SUCCESS, writing REFUNDED. -/
def refund_payment (db : List PaymentRecord) (pid : String)
    (gw : Except String Unit) (now : Nat) : MutResult :=
  match DatabaseAdapter.get_payment db pid with
  | none => ⟨.error (.notFound pid), db, false⟩
  | some p =>
    if p.status = .SUCCESS then
      match gw with
      | .error m => ⟨.error (.gatewayError m), db, true⟩
      | .ok _ =>
        match DatabaseAdapter.update_payment_status db pid .REFUNDED now with
        | .ok db' =>
          ⟨.ok ((DatabaseAdapter.get_payment db' pid).map
              DatabaseAdapter.record_to_response), db', true⟩
        | .error e => ⟨.error e, db, true⟩
    else
      ⟨.error (.invalidState "refund" p.status), db, false⟩

/-- `PaymentService.create_payment` (services.py lines 22-36): gateway create,
then upsert into storage. -/
def create_payment (db : List PaymentRecord) (order_id : String) (amount : Int)
    (redirect_url : Option String) (now : Nat) :
    Except ServiceError (PaymentResponse × List PaymentRecord) :=
  match MidtransAdapter.create_payment order_id amount redirect_url now with
  | .error e => .error e
  | .ok p => .ok (p, DatabaseAdapter.save_payment db p now)

end PaymentService

/-- An inbound Midtrans webhook payload: the dict fields the handler reads,
each possibly absent. -/
structure NotifPayload where
  transaction_id : Option String
  order_id : Option String
  transaction_status : Option String
  gross_amount : Option String
  payment_type : Option String
  fraud_status : Option String
  status_code : Option String
  signature_key : Option String
deriving DecidableEq, Repr

/-- Python string interpolation of a possibly-missing dict value:
`f"{d.get(k)}"` renders a missing key as "None". -/
def pyStr : Option String → String
  | none => "None"
  | some s => s

namespace WebhookHandler

/-- `WebhookHandler.verify_signature` (webhook_handler.py lines 21-39):
SHA-512 hex over `order_id + status_code + gross_amount + server_key`
(`sha512hex` abstracts the digest), compared by string equality against
`signature_key`; a missing `signature_key` compares unequal (and the
source's catch-all maps any exception to False, never an error). -/
def verify_signature (sha512hex : String → String) (server_key : String)
    (nd : NotifPayload) : Bool :=
  let signature_string :=
    pyStr nd.order_id ++ pyStr nd.status_code ++ pyStr nd.gross_amount ++ server_key
  match nd.signature_key with
  | some k => sha512hex signature_string = k
  | none => false

/-- `WebhookHandler.parse_notification` (webhook_handler.py lines 41-52):
HTTP 400 naming the first missing required field, in the source's order. -/
def parse_notification (nd : NotifPayload) : Except String Unit :=
  if nd.transaction_id.isNone then .error "Missing required field: transaction_id"
  else if nd.order_id.isNone then .error "Missing required field: order_id"
  else if nd.transaction_status.isNone then .error "Missing required field: transaction_status"
  else if nd.gross_amount.isNone then .error "Missing required field: gross_amount"
  else if nd.payment_type.isNone then .error "Missing required field: payment_type"
  else .ok ()

/-- The structured outcome of `process_webhook`: the success dict, the
warning dict, or one of the raised `HTTPException`s (401 / 400 / 500). -/
inductive WebhookOutcome where
  | success (payment_id : String) (old_status new_status : PaymentStatus)
  | warningNotFound
  | unauthorized
  | badRequest (detail : String)
  | serverError (e : ServiceError)
deriving DecidableEq, Repr

/-- Outcome plus effect trace of one `process_webhook` call. -/
structure WebhookResult where
  outcome : WebhookOutcome
  db : List PaymentRecord
  storageRead : Bool
  wrote : Bool
deriving DecidableEq, Repr

/-- `WebhookHandler.process_webhook` (webhook_handler.py lines 74-129):
signature check (when `verify`), then required-field parse, status mapping,
lookup of the newest payment of the order, and a write only when the mapped
status differs from the stored one. -/
def process_webhook (sha512hex : String → String) (server_key : String)
    (nd : NotifPayload) (db : List PaymentRecord) (verify : Bool) (now : Nat) :
    WebhookResult :=
  if verify ∧ ¬ verify_signature sha512hex server_key nd then
    ⟨.unauthorized, db, false, false⟩
  else
    match parse_notification nd with
    | .error d => ⟨.badRequest d, db, false, false⟩
    | .ok _ =>
      let new_status :=
        map_status_to_payment_status (nd.transaction_status.getD "") nd.fraud_status
      match DatabaseAdapter.get_payments_by_order db (nd.order_id.getD "") with
      | [] => ⟨.warningNotFound, db, true, false⟩
      | payment :: _ =>
        if payment.status ≠ new_status then
          match DatabaseAdapter.update_payment_status db payment.payment_id new_status now with
          | .ok db' => ⟨.success payment.payment_id payment.status new_status, db', true, true⟩
          | .error e => ⟨.serverError e, db, true, false⟩
        else
          ⟨.success payment.payment_id payment.status new_status, db, true, false⟩

end WebhookHandler

namespace PaymentService

/-- `PaymentService.handle_notification` (services.py lines 138-159) composed
with `MidtransAdapter.handle_notification` (midtrans_adapter.py lines
355-396): map the raw transaction status (defaulted to "", lower-cased, fraud
ignored on this path), then update the newest payment of the order when the
status differs.  Returns the store afterwards and the mapped status. -/
def handle_notification (db : List PaymentRecord) (nd : NotifPayload)
    (now : Nat) : Except ServiceError (List PaymentRecord × PaymentStatus) :=
  let st := MidtransAdapter.mapNotificationStatus (nd.transaction_status.getD "")
  match DatabaseAdapter.get_payments_by_order db (nd.order_id.getD "") with
  | [] => .ok (db, st)
  | payment :: _ =>
    if payment.status ≠ st then
      match DatabaseAdapter.update_payment_status db payment.payment_id st now with
      | .ok db' => .ok (db', st)
      | .error e => .error e
    else
      .ok (db, st)

end PaymentService

/-- The five store-touching operations of the Reconciliation Service. -/
inductive ServiceOp where
  | refresh
  | forceCheck
  | notify
  | cancel
  | refund
deriving DecidableEq, Repr

/-- `g` is a status the gateway query port can report
(`MidtransAdapter.get_payment_status` on some response). -/
def gatewayImage (g : PaymentStatus) : Prop :=
  ∃ resp, MidtransAdapter.get_payment_status resp = g

/-- `n` is a status one of the two notification-path mappers can produce. -/
def notifyImage (n : PaymentStatus) : Prop :=
  (∃ ts, MidtransAdapter.mapNotificationStatus ts = n) ∨
  (∃ ts fs, WebhookHandler.map_status_to_payment_status ts fs = n)

/-- One status transition of a stored payment, labelled by the service
operation that performs it — the status-level projection of
`PaymentService.get_payment` / `get_payment_status` / `handle_notification`
(with `WebhookHandler.process_webhook`) / `cancel_payment` / `refund_payment`:
each constructor's guard is exactly the condition under which that operation
issues `update_payment_status` for the payment, and its target is exactly the
status written. -/
inductive StoredStatusStep : ServiceOp → PaymentStatus → PaymentStatus → Prop where
  | refresh (s g : PaymentStatus) (hs : s = .PENDING ∨ s = .PROCESSING)
      (him : gatewayImage g) (hne : g ≠ s) : StoredStatusStep .refresh s g
  | forceCheck (s g : PaymentStatus) (him : gatewayImage g) (hne : g ≠ s) :
      StoredStatusStep .forceCheck s g
  | notify (s n : PaymentStatus) (him : notifyImage n) (hne : n ≠ s) :
      StoredStatusStep .notify s n
  | cancel (s : PaymentStatus) (hs : s = .PENDING ∨ s = .PROCESSING) :
      StoredStatusStep .cancel s .CANCELED
  | refund (s : PaymentStatus) (hs : s = .SUCCESS) :
      StoredStatusStep .refund s .REFUNDED

/-! ## Theorems settling the claims -/

/-- Inserting an image row into an image list commutes with a
`created_at`-preserving row map. -/
theorem insertByCreatedDesc_map (f : PaymentRecord → PaymentRecord)
    (hf : ∀ r, (f r).created_at = r.created_at) (r : PaymentRecord)
    (l : List PaymentRecord) :
    DatabaseAdapter.insertByCreatedDesc (f r) (l.map f) =
      (DatabaseAdapter.insertByCreatedDesc r l).map f := by
  induction l with
  | nil => rfl
  | cons x xs ih =>
    simp only [List.map_cons, DatabaseAdapter.insertByCreatedDesc, hf]
    by_cases h : x.created_at ≤ r.created_at
    · rw [if_pos h, if_pos h]
      rfl
    · rw [if_neg h, if_neg h]
      simp [ih]

/-- The newest-first sort commutes with a `created_at`-preserving row map. -/
theorem sortByCreatedDesc_map (f : PaymentRecord → PaymentRecord)
    (hf : ∀ r, (f r).created_at = r.created_at) (l : List PaymentRecord) :
    DatabaseAdapter.sortByCreatedDesc (l.map f) =
      (DatabaseAdapter.sortByCreatedDesc l).map f := by
  induction l with
  | nil => rfl
  | cons x xs ih =>
    simp only [List.map_cons, DatabaseAdapter.sortByCreatedDesc]
    rw [ih, insertByCreatedDesc_map f hf]

/-- The by-order filter commutes with an `order_id`-preserving row map. -/
theorem filter_map_order_id (f : PaymentRecord → PaymentRecord)
    (hf : ∀ r, (f r).order_id = r.order_id) (l : List PaymentRecord)
    (oid : String) :
    (l.map f).filter (·.order_id = oid) =
      (l.filter (·.order_id = oid)).map f := by
  induction l with
  | nil => rfl
  | cons x xs ih =>
    simp only [List.map_cons, List.filter_cons, hf]
    by_cases h : x.order_id = oid
    · simp [h, ih]
    · simp [h, ih]

/-- Membership in an insertion. -/
theorem mem_insertByCreatedDesc (a r : PaymentRecord)
    (l : List PaymentRecord) :
    a ∈ DatabaseAdapter.insertByCreatedDesc r l ↔ a = r ∨ a ∈ l := by
  induction l with
  | nil => simp [DatabaseAdapter.insertByCreatedDesc]
  | cons x xs ih =>
    unfold DatabaseAdapter.insertByCreatedDesc
    by_cases h : x.created_at ≤ r.created_at
    · simp [h]
    · rw [if_neg h]
      simp only [List.mem_cons, ih]
      tauto

/-- The newest-first sort is a permutation at the level of membership. -/
theorem mem_sortByCreatedDesc (a : PaymentRecord) (l : List PaymentRecord) :
    a ∈ DatabaseAdapter.sortByCreatedDesc l ↔ a ∈ l := by
  induction l with
  | nil => simp [DatabaseAdapter.sortByCreatedDesc]
  | cons x xs ih =>
    simp [DatabaseAdapter.sortByCreatedDesc, mem_insertByCreatedDesc, ih]

/-- The newest payment reported for an order is a stored row of that order. -/
theorem head_get_payments_mem (db : List PaymentRecord) (oid : String)
    (p : PaymentRecord) (rest : List PaymentRecord)
    (h : DatabaseAdapter.get_payments_by_order db oid = p :: rest) :
    p ∈ db ∧ p.order_id = oid := by
  have hmem : p ∈ DatabaseAdapter.get_payments_by_order db oid := by
    rw [h]
    simp
  unfold DatabaseAdapter.get_payments_by_order at hmem
  rw [mem_sortByCreatedDesc] at hmem
  have hm := List.mem_filter.mp hmem
  exact ⟨hm.1, by simpa using hm.2⟩

/-- A status update never touches a row's primary key. -/
theorem applyStatusUpdate_payment_id (pid : String) (st : PaymentStatus)
    (t : Nat) (r : PaymentRecord) :
    (DatabaseAdapter.applyStatusUpdate pid st t r).payment_id = r.payment_id := by
  unfold DatabaseAdapter.applyStatusUpdate
  split <;> rfl

/-- A status update never touches a row's order id. -/
theorem applyStatusUpdate_order_id (pid : String) (st : PaymentStatus)
    (t : Nat) (r : PaymentRecord) :
    (DatabaseAdapter.applyStatusUpdate pid st t r).order_id = r.order_id := by
  unfold DatabaseAdapter.applyStatusUpdate
  split <;> rfl

/-- A status update never touches a row's creation time. -/
theorem applyStatusUpdate_created_at (pid : String) (st : PaymentStatus)
    (t : Nat) (r : PaymentRecord) :
    (DatabaseAdapter.applyStatusUpdate pid st t r).created_at = r.created_at := by
  unfold DatabaseAdapter.applyStatusUpdate
  split <;> rfl

/-- The by-order listing after a status update is the row-wise update of the
listing before it. -/
theorem get_payments_by_order_update (db : List PaymentRecord) (pid : String)
    (st : PaymentStatus) (t : Nat) (oid : String) :
    DatabaseAdapter.get_payments_by_order
        (db.map (DatabaseAdapter.applyStatusUpdate pid st t)) oid =
      (DatabaseAdapter.get_payments_by_order db oid).map
        (DatabaseAdapter.applyStatusUpdate pid st t) := by
  unfold DatabaseAdapter.get_payments_by_order
  rw [filter_map_order_id _ (applyStatusUpdate_order_id pid st t) db oid,
    sortByCreatedDesc_map _ (applyStatusUpdate_created_at pid st t)]

/-- A row found by primary key carries that key. -/
theorem get_payment_id_eq (db : List PaymentRecord) (pid : String)
    (p : PaymentRecord) (hp : DatabaseAdapter.get_payment db pid = some p) :
    p.payment_id = pid := by
  unfold DatabaseAdapter.get_payment at hp
  simpa using List.find?_some hp

/-- Reading a row by id after a status update of that id returns the row with
just its status and `updated_at` replaced. -/
theorem get_payment_after_update (db : List PaymentRecord) (pid : String)
    (p : PaymentRecord) (st : PaymentStatus) (t : Nat)
    (hp : DatabaseAdapter.get_payment db pid = some p) :
    DatabaseAdapter.get_payment
        (db.map (DatabaseAdapter.applyStatusUpdate pid st t)) pid =
      some { p with status := st, updated_at := t } := by
  have hpid : p.payment_id = pid := get_payment_id_eq db pid p hp
  unfold DatabaseAdapter.get_payment at hp ⊢
  rw [List.find?_map]
  have hpred : ((fun r : PaymentRecord => decide (r.payment_id = pid)) ∘
      DatabaseAdapter.applyStatusUpdate pid st t) =
      fun r : PaymentRecord => decide (r.payment_id = pid) := by
    funext r
    simp [Function.comp, applyStatusUpdate_payment_id]
  rw [hpred, hp]
  unfold DatabaseAdapter.applyStatusUpdate
  simp [hpid]

/-- C1 (counterexample): the polling-path mapper and the notification-path
mappers do NOT agree on every (transaction_status, fraud_status) pair.  On
("pending", "deny") the polling path returns FAILED (fraud override) while
`MidtransAdapter.handle_notification` — which never reads fraud_status —
returns PENDING; and on ("Capture", absent) the polling path returns PENDING
(no lower-casing) while `WebhookHandler.map_status_to_payment_status` returns
SUCCESS. -/
theorem queryStatus_notification_disagree_cex :
    MidtransAdapter.mapQueryStatus (some "pending") (some "deny") ≠
      MidtransAdapter.mapNotificationStatus "pending"
  ∧ MidtransAdapter.mapQueryStatus (some "Capture") none ≠
      WebhookHandler.map_status_to_payment_status "Capture" none := by
  decide

/-- C1 (amended): on inputs whose transaction_status is already lower-case the
polling-path mapper agrees with the webhook handler's mapper, and — when
additionally fraud_status is not "deny" — the webhook handler's mapper agrees
with the notification adapter's mapper (which ignores fraud_status). -/
theorem status_mappers_agree_lowercase (ts : String) (fs : Option String)
    (hlow : pyLower ts = ts) :
    MidtransAdapter.mapQueryStatus (some ts) fs =
      WebhookHandler.map_status_to_payment_status ts fs
  ∧ (fs ≠ some "deny" →
      WebhookHandler.map_status_to_payment_status ts fs =
        MidtransAdapter.mapNotificationStatus ts) := by
  constructor
  · unfold MidtransAdapter.mapQueryStatus MidtransAdapter.mapTransactionStatus
      WebhookHandler.map_status_to_payment_status
    simp only [hlow, Option.some.injEq]
  · intro hfs
    unfold WebhookHandler.map_status_to_payment_status
      MidtransAdapter.mapNotificationStatus
    simp only [hlow, if_neg hfs]
    split_ifs <;> simp_all

/-- Concrete instance of the amended C1 agreement at ("settlement", absent). -/
theorem status_mappers_agree_lowercase_witness :
    pyLower "settlement" = "settlement"
  ∧ MidtransAdapter.mapQueryStatus (some "settlement") none =
      WebhookHandler.map_status_to_payment_status "settlement" none
  ∧ WebhookHandler.map_status_to_payment_status "settlement" none =
      MidtransAdapter.mapNotificationStatus "settlement" := by
  refine ⟨by decide, ?_, ?_⟩
  · exact (status_mappers_agree_lowercase "settlement" none (by decide)).1
  · exact (status_mappers_agree_lowercase "settlement" none (by decide)).2
      (by decide)

/-- C2: the polling-path mapper realises the §4.1 table exactly — fraud
"deny" forces FAILED whatever the transaction status; each recognised
transaction status maps per the table; every other value (including an absent
field) maps to PENDING.  The mapper is a total function, so no input can make
it throw. -/
theorem mapQueryStatus_table :
    (∀ ts : Option String,
      MidtransAdapter.mapQueryStatus ts (some "deny") = .FAILED)
  ∧ (∀ fs : Option String, fs ≠ some "deny" →
      MidtransAdapter.mapQueryStatus (some "capture") fs = .SUCCESS
    ∧ MidtransAdapter.mapQueryStatus (some "settlement") fs = .SUCCESS
    ∧ MidtransAdapter.mapQueryStatus (some "pending") fs = .PENDING
    ∧ MidtransAdapter.mapQueryStatus (some "deny") fs = .FAILED
    ∧ MidtransAdapter.mapQueryStatus (some "cancel") fs = .CANCELED
    ∧ MidtransAdapter.mapQueryStatus (some "expire") fs = .EXPIRED
    ∧ MidtransAdapter.mapQueryStatus (some "refund") fs = .REFUNDED
    ∧ MidtransAdapter.mapQueryStatus (some "partial_refund") fs = .REFUNDED)
  ∧ (∀ ts fs : Option String, fs ≠ some "deny" →
      ts ∉ [some "capture", some "settlement", some "pending", some "deny",
            some "cancel", some "expire", some "refund", some "partial_refund"] →
      MidtransAdapter.mapQueryStatus ts fs = .PENDING) := by
  refine ⟨?_, ?_, ?_⟩
  · intro ts
    simp [MidtransAdapter.mapQueryStatus]
  · intro fs hfs
    simp [MidtransAdapter.mapQueryStatus, MidtransAdapter.mapTransactionStatus,
      hfs]
  · intro ts fs hfs hts
    simp only [List.mem_cons, not_or] at hts
    obtain ⟨h1, h2, h3, h4, h5, h6, h7, h8, -⟩ := hts
    simp [MidtransAdapter.mapQueryStatus, MidtransAdapter.mapTransactionStatus,
      hfs, h1, h2, h3, h4, h5, h6, h7, h8]

/-- Concrete instances of the C2 table: fraud override, one recognised value,
one unrecognised value. -/
theorem mapQueryStatus_table_witness :
    MidtransAdapter.mapQueryStatus (some "settlement") (some "deny") = .FAILED
  ∧ MidtransAdapter.mapQueryStatus (some "capture") (some "accept") = .SUCCESS
  ∧ MidtransAdapter.mapQueryStatus (some "challenge_me") none = .PENDING := by
  refine ⟨mapQueryStatus_table.1 (some "settlement"), ?_, ?_⟩
  · exact (mapQueryStatus_table.2.1 (some "accept") (by decide)).1
  · exact mapQueryStatus_table.2.2 (some "challenge_me") none (by decide)
      (by decide)

/-- C3 (counterexample): a stored status can become REFUNDED from PENDING,
not only from SUCCESS — the notification path updates to whatever the mapper
produces.  Abstractly, `StoredStatusStep .notify PENDING REFUNDED` holds (the
notification mapper sends "refund" to REFUNDED); concretely, a correctly
signed "refund" webhook processed against a store holding a single PENDING
payment leaves that payment REFUNDED. -/
theorem refunded_reachable_from_pending_cex :
    StoredStatusStep .notify .PENDING .REFUNDED
  ∧ (WebhookHandler.process_webhook (fun _ => "sig") "key"
        { transaction_id := some "t9", order_id := some "ORD-9",
          transaction_status := some "refund", gross_amount := some "100",
          payment_type := some "qris", fraud_status := none,
          status_code := some "200", signature_key := some "sig" }
        [{ payment_id := "payment-ORD-9", order_id := "ORD-9",
           status := .PENDING, amount := 100, transaction_time := 0,
           payment_url := none, created_at := 0, updated_at := 0,
           additional_data := none }] true 5).db.map (·.status) = [.REFUNDED]
  ∧ PaymentStatus.PENDING ≠ .SUCCESS := by
  refine ⟨.notify _ _ (Or.inl ⟨"refund", by decide⟩) (by decide), ?_, by decide⟩
  decide

/-- C3 (amended): among the update operations, only cancel and refund guard on
the stored status, and a guarded step that lands in REFUNDED does come from
SUCCESS; the gateway-driven steps (read-with-refresh, force-check,
notification) can write REFUNDED over any differing stored status. -/
theorem refunded_guarded_ops_from_success (op : ServiceOp)
    (s s' : PaymentStatus) (h : StoredStatusStep op s s')
    (hop : op = .cancel ∨ op = .refund) (href : s' = .REFUNDED) :
    s = .SUCCESS := by
  cases h <;> simp_all

/-- Concrete instance of the amended C3: the refund step out of SUCCESS. -/
theorem refunded_guarded_ops_from_success_witness :
    StoredStatusStep .refund .SUCCESS .REFUNDED
  ∧ PaymentStatus.SUCCESS = .SUCCESS := by
  have hstep : StoredStatusStep .refund .SUCCESS .REFUNDED :=
    .refund _ rfl
  exact ⟨hstep, refunded_guarded_ops_from_success .refund .SUCCESS .REFUNDED
    hstep (Or.inr rfl) rfl⟩

/-- A guarded per-row rewrite leaves a store untouched when no row carries the
key. -/
theorem map_upsert_eq_self (db : List PaymentRecord) (pid : String)
    (g : PaymentRecord → PaymentRecord)
    (h : ∀ r ∈ db, ¬ (r.payment_id = pid)) :
    (db.map fun r => if r.payment_id = pid then g r else r) = db := by
  induction db with
  | nil => rfl
  | cons x xs ih =>
    simp only [List.map_cons]
    rw [if_neg (h x (by simp)), ih fun r hr => h r (by simp [hr])]

/-- C4 (counterexample): two creates for order "ORD-1" (amounts 100 then 200)
both yield id "payment-ORD-1"; after the second create the store holds a
single record whose amount has been overwritten to 200 — not two records with
distinct ids, and the first record does not retain its amount or
`updated_at`. -/
theorem duplicate_create_overwrites_cex :
    PaymentService.create_payment [] "ORD-1" 100 none 0 =
      .ok ({ id := "payment-ORD-1", order_id := "ORD-1",
             transaction_id := "ORD-1", amount := 100, status := .PENDING,
             payment_url := none, created_at := 0, updated_at := 0,
             metadata := none },
           [{ payment_id := "payment-ORD-1", order_id := "ORD-1",
              status := .PENDING, amount := 100, transaction_time := 0,
              payment_url := none, created_at := 0, updated_at := 0,
              additional_data := none }])
  ∧ PaymentService.create_payment
      [{ payment_id := "payment-ORD-1", order_id := "ORD-1",
         status := .PENDING, amount := 100, transaction_time := 0,
         payment_url := none, created_at := 0, updated_at := 0,
         additional_data := none }] "ORD-1" 200 none 1 =
      .ok ({ id := "payment-ORD-1", order_id := "ORD-1",
             transaction_id := "ORD-1", amount := 200, status := .PENDING,
             payment_url := none, created_at := 1, updated_at := 1,
             metadata := none },
           [{ payment_id := "payment-ORD-1", order_id := "ORD-1",
              status := .PENDING, amount := 200, transaction_time := 1,
              payment_url := none, created_at := 0, updated_at := 1,
              additional_data := none }])
  ∧ (100 : Int) ≠ 200 := by
  decide

/-- C4 (amended): two gateway-accepted creates with the same order_id produce
the SAME payment id `"payment-" + order_id`; when the store held no record
with that id beforehand, the second create upserts over the first record,
overwriting its amount/transaction_time/payment_url/updated_at (only
`created_at` survives from the first create), so exactly one record for that
id remains. -/
theorem duplicate_create_same_id_upsert (db : List PaymentRecord)
    (oid : String) (a1 a2 : Int) (u1 u2 : Option String) (t1 t2 : Nat)
    (hoid : oid ≠ "") (ha1 : 0 < a1) (ha2 : 0 < a2)
    (hfresh : db.find? (·.payment_id = "payment-" ++ oid) = none) :
    ∃ p1 db1 p2 db2,
      PaymentService.create_payment db oid a1 u1 t1 = .ok (p1, db1)
    ∧ PaymentService.create_payment db1 oid a2 u2 t2 = .ok (p2, db2)
    ∧ p1.id = "payment-" ++ oid
    ∧ p2.id = p1.id
    ∧ db2 = db ++ [{ payment_id := "payment-" ++ oid, order_id := oid,
                     status := .PENDING, amount := a2, transaction_time := t2,
                     payment_url := u2, created_at := t1, updated_at := t2,
                     additional_data := u2 }] := by
  have hna1 : ¬ a1 ≤ 0 := by omega
  have hna2 : ¬ a2 ≤ 0 := by omega
  refine ⟨{ id := "payment-" ++ oid, order_id := oid, transaction_id := oid,
            amount := a1, status := .PENDING, payment_url := u1,
            created_at := t1, updated_at := t1, metadata := u1 },
          db ++ [{ payment_id := "payment-" ++ oid, order_id := oid,
                   status := .PENDING, amount := a1, transaction_time := t1,
                   payment_url := u1, created_at := t1, updated_at := t1,
                   additional_data := u1 }],
          { id := "payment-" ++ oid, order_id := oid, transaction_id := oid,
            amount := a2, status := .PENDING, payment_url := u2,
            created_at := t2, updated_at := t2, metadata := u2 },
          _, ?_, ?_, rfl, rfl, rfl⟩
  · unfold PaymentService.create_payment MidtransAdapter.create_payment
      DatabaseAdapter.save_payment
    rw [if_neg hoid, if_neg hna1]
    dsimp only
    rw [hfresh]
    rfl
  · unfold PaymentService.create_payment MidtransAdapter.create_payment
      DatabaseAdapter.save_payment
    rw [if_neg hoid, if_neg hna2]
    dsimp only
    rw [List.find?_append, hfresh]
    rw [List.find?_cons_of_pos _ (by simp)]
    simp only [Option.none_orElse, Option.isSome_some, if_pos, List.map_append]
    rw [map_upsert_eq_self db ("payment-" ++ oid) _
      (fun r hr => by
        have := List.find?_eq_none.mp hfresh r hr
        simpa using this)]
    simp

/-- Concrete instance of the amended C4 on an empty store. -/
theorem duplicate_create_same_id_upsert_witness :
    ∃ p1 db1 p2 db2,
      PaymentService.create_payment [] "ORD-2" 1 none 0 = .ok (p1, db1)
    ∧ PaymentService.create_payment db1 "ORD-2" 2 none 1 = .ok (p2, db2)
    ∧ p1.id = "payment-" ++ "ORD-2"
    ∧ p2.id = p1.id
    ∧ db2 = [] ++ [{ payment_id := "payment-" ++ "ORD-2", order_id := "ORD-2",
                     status := .PENDING, amount := 2, transaction_time := 1,
                     payment_url := none, created_at := 0, updated_at := 1,
                     additional_data := none }] :=
  duplicate_create_same_id_upsert [] "ORD-2" 1 2 none none 0 1
    (by decide) (by decide) (by decide) rfl

/-- C5: for an existing stored payment, cancel raises the invalid-state error
naming the current status exactly when that status is outside
{PENDING, PROCESSING}, and refund raises it exactly when the status is not
SUCCESS; in the raising case the call returns with the store untouched and
the gateway never reached.  The last two conjuncts spell out the raised
message. -/
theorem cancel_refund_invalid_state_guard (db : List PaymentRecord)
    (pid : String) (p : PaymentRecord) (gw : Except String Unit) (now : Nat)
    (hp : DatabaseAdapter.get_payment db pid = some p) :
    ((PaymentService.cancel_payment db pid gw now).result =
        .error (.invalidState "cancel" p.status) ↔
      ¬ (p.status = .PENDING ∨ p.status = .PROCESSING))
  ∧ (¬ (p.status = .PENDING ∨ p.status = .PROCESSING) →
      PaymentService.cancel_payment db pid gw now =
        ⟨.error (.invalidState "cancel" p.status), db, false⟩)
  ∧ ((PaymentService.refund_payment db pid gw now).result =
        .error (.invalidState "refund" p.status) ↔ p.status ≠ .SUCCESS)
  ∧ (p.status ≠ .SUCCESS →
      PaymentService.refund_payment db pid gw now =
        ⟨.error (.invalidState "refund" p.status), db, false⟩)
  ∧ ServiceError.message (.invalidState "cancel" p.status) =
      "Cannot cancel payment with status: " ++ p.status.value
  ∧ ServiceError.message (.invalidState "refund" p.status) =
      "Cannot refund payment with status: " ++ p.status.value := by
  have hsome : (db.find? (·.payment_id = pid)).isSome = true := by
    unfold DatabaseAdapter.get_payment at hp
    simp [hp]
  have hup : ∀ (st : PaymentStatus) (t : Nat),
      DatabaseAdapter.update_payment_status db pid st t =
        .ok (db.map (DatabaseAdapter.applyStatusUpdate pid st t)) := by
    intro st t
    unfold DatabaseAdapter.update_payment_status
    rw [if_pos hsome]
  refine ⟨?_, ?_, ?_, ?_, rfl, rfl⟩
  · unfold PaymentService.cancel_payment
    rw [hp]
    dsimp only
    by_cases hst : p.status = .PENDING ∨ p.status = .PROCESSING
    · rw [if_pos hst]
      cases gw with
      | error m => simp [hst]
      | ok u => rw [hup]; simp [hst]
    · rw [if_neg hst]
      simp [hst]
  · intro hst
    unfold PaymentService.cancel_payment
    rw [hp]
    dsimp only
    rw [if_neg hst]
  · unfold PaymentService.refund_payment
    rw [hp]
    dsimp only
    by_cases hst : p.status = .SUCCESS
    · rw [if_pos hst]
      cases gw with
      | error m => simp [hst]
      | ok u => rw [hup]; simp [hst]
    · rw [if_neg hst]
      simp [hst]
  · intro hst
    unfold PaymentService.refund_payment
    rw [hp]
    dsimp only
    rw [if_neg hst]

/-- Concrete instances of C5: cancel rejected on a SUCCESS payment, refund
rejected on a PENDING payment, both leaving the store alone. -/
theorem cancel_refund_invalid_state_guard_witness :
    PaymentService.cancel_payment
      [{ payment_id := "p1", order_id := "O1", status := .SUCCESS,
         amount := 10, transaction_time := 0, payment_url := none,
         created_at := 0, updated_at := 0, additional_data := none }]
      "p1" (.ok ()) 3 =
      ⟨.error (.invalidState "cancel" .SUCCESS),
       [{ payment_id := "p1", order_id := "O1", status := .SUCCESS,
          amount := 10, transaction_time := 0, payment_url := none,
          created_at := 0, updated_at := 0, additional_data := none }], false⟩
  ∧ PaymentService.refund_payment
      [{ payment_id := "p2", order_id := "O2", status := .PENDING,
         amount := 10, transaction_time := 0, payment_url := none,
         created_at := 0, updated_at := 0, additional_data := none }]
      "p2" (.ok ()) 3 =
      ⟨.error (.invalidState "refund" .PENDING),
       [{ payment_id := "p2", order_id := "O2", status := .PENDING,
          amount := 10, transaction_time := 0, payment_url := none,
          created_at := 0, updated_at := 0, additional_data := none }], false⟩ := by
  constructor
  · exact (cancel_refund_invalid_state_guard
      [{ payment_id := "p1", order_id := "O1", status := .SUCCESS,
         amount := 10, transaction_time := 0, payment_url := none,
         created_at := 0, updated_at := 0, additional_data := none }] "p1"
      { payment_id := "p1", order_id := "O1", status := .SUCCESS,
        amount := 10, transaction_time := 0, payment_url := none,
        created_at := 0, updated_at := 0, additional_data := none }
      (.ok ()) 3 rfl).2.1 (by decide)
  · exact (cancel_refund_invalid_state_guard
      [{ payment_id := "p2", order_id := "O2", status := .PENDING,
         amount := 10, transaction_time := 0, payment_url := none,
         created_at := 0, updated_at := 0, additional_data := none }] "p2"
      { payment_id := "p2", order_id := "O2", status := .PENDING,
        amount := 10, transaction_time := 0, payment_url := none,
        created_at := 0, updated_at := 0, additional_data := none }
      (.ok ()) 3 rfl).2.2.2.1 (by decide)

/-- C6 (counterexample): read-with-refresh does NOT always keep the stored
status when the gateway query fails.  On a stored PROCESSING payment a failed
query is mapped to PENDING by the port, which differs from PROCESSING, so
get_payment persists PENDING and returns it — not the status stored before
the call, and the stored record changes. -/
theorem get_payment_gateway_failure_processing_cex :
    PaymentService.get_payment
      [{ payment_id := "p3", order_id := "O3", status := .PROCESSING,
         amount := 10, transaction_time := 0, payment_url := none,
         created_at := 0, updated_at := 0, additional_data := none }]
      "p3" .exn 7 =
      ⟨some { id := "p3", order_id := "O3", transaction_id := "p3",
              amount := 10, status := .PENDING, payment_url := none,
              created_at := 0, updated_at := 7, metadata := none },
       [{ payment_id := "p3", order_id := "O3", status := .PENDING,
          amount := 10, transaction_time := 0, payment_url := none,
          created_at := 0, updated_at := 7, additional_data := none }],
       true, true⟩
  ∧ PaymentStatus.PROCESSING ≠ .PENDING := by
  decide

/-- C6 (amended): when the gateway status query fails during
read-with-refresh, the operation still returns normally; for every stored
status except PROCESSING the pre-call status is returned and the record is
untouched (the gateway is consulted exactly when the status was PENDING, and
the failure maps to PENDING, a no-op); a stored PROCESSING payment, however,
is overwritten with PENDING and returned as PENDING. -/
theorem get_payment_gateway_failure_stale_status (db : List PaymentRecord)
    (pid : String) (p : PaymentRecord) (resp : GatewayStatusResp) (now : Nat)
    (hp : DatabaseAdapter.get_payment db pid = some p)
    (hfail : resp.isFailure = true) :
    (p.status ≠ .PROCESSING →
      PaymentService.get_payment db pid resp now =
        ⟨some (DatabaseAdapter.record_to_response p), db,
         decide (p.status = .PENDING), false⟩)
  ∧ (p.status = .PROCESSING →
      PaymentService.get_payment db pid resp now =
        ⟨some (DatabaseAdapter.record_to_response
                 { p with status := .PENDING, updated_at := now }),
         db.map (DatabaseAdapter.applyStatusUpdate pid .PENDING now),
         true, true⟩) := by
  have hlatest : MidtransAdapter.get_payment_status resp = .PENDING := by
    cases resp with
    | ok ts fs => simp [GatewayStatusResp.isFailure] at hfail
    | httpError c => rfl
    | exn => rfl
  have hpid : p.payment_id = pid := get_payment_id_eq db pid p hp
  have hsome : (db.find? (·.payment_id = pid)).isSome = true := by
    unfold DatabaseAdapter.get_payment at hp
    simp [hp]
  constructor
  · intro hnp
    unfold PaymentService.get_payment
    rw [hp]
    dsimp only
    by_cases hpend : p.status = .PENDING
    · rw [if_pos (Or.inl hpend), hlatest]
      rw [if_neg (by simp [hpend])]
      simp [hpend]
    · rw [if_neg (by
        intro hor
        cases hor with
        | inl h => exact hpend h
        | inr h => exact hnp h)]
      simp [hpend]
  · intro hproc
    unfold PaymentService.get_payment
    rw [hp]
    dsimp only
    rw [if_pos (Or.inr hproc), hlatest]
    rw [if_pos (by simp [hproc])]
    unfold DatabaseAdapter.update_payment_status
    rw [hpid, if_pos hsome]
    dsimp only
    rw [get_payment_after_update db pid p .PENDING now hp]
    simp [hpid]

/-- Concrete instances of the amended C6: a failed gateway query leaves a
stored PENDING payment and a stored SUCCESS payment untouched. -/
theorem get_payment_gateway_failure_stale_status_witness :
    PaymentService.get_payment
      [{ payment_id := "p4", order_id := "O4", status := .PENDING,
         amount := 10, transaction_time := 0, payment_url := none,
         created_at := 0, updated_at := 0, additional_data := none }]
      "p4" (.httpError 500) 7 =
      ⟨some { id := "p4", order_id := "O4", transaction_id := "p4",
              amount := 10, status := .PENDING, payment_url := none,
              created_at := 0, updated_at := 0, metadata := none },
       [{ payment_id := "p4", order_id := "O4", status := .PENDING,
          amount := 10, transaction_time := 0, payment_url := none,
          created_at := 0, updated_at := 0, additional_data := none }],
       true, false⟩
  ∧ PaymentService.get_payment
      [{ payment_id := "p5", order_id := "O5", status := .SUCCESS,
         amount := 10, transaction_time := 0, payment_url := none,
         created_at := 0, updated_at := 0, additional_data := none }]
      "p5" .exn 7 =
      ⟨some { id := "p5", order_id := "O5", transaction_id := "p5",
              amount := 10, status := .SUCCESS, payment_url := none,
              created_at := 0, updated_at := 0, metadata := none },
       [{ payment_id := "p5", order_id := "O5", status := .SUCCESS,
          amount := 10, transaction_time := 0, payment_url := none,
          created_at := 0, updated_at := 0, additional_data := none }],
       false, false⟩ := by
  constructor
  · exact (get_payment_gateway_failure_stale_status
      [{ payment_id := "p4", order_id := "O4", status := .PENDING,
         amount := 10, transaction_time := 0, payment_url := none,
         created_at := 0, updated_at := 0, additional_data := none }] "p4"
      { payment_id := "p4", order_id := "O4", status := .PENDING,
        amount := 10, transaction_time := 0, payment_url := none,
        created_at := 0, updated_at := 0, additional_data := none }
      (.httpError 500) 7 rfl rfl).1 (by decide)
  · exact (get_payment_gateway_failure_stale_status
      [{ payment_id := "p5", order_id := "O5", status := .SUCCESS,
         amount := 10, transaction_time := 0, payment_url := none,
         created_at := 0, updated_at := 0, additional_data := none }] "p5"
      { payment_id := "p5", order_id := "O5", status := .SUCCESS,
        amount := 10, transaction_time := 0, payment_url := none,
        created_at := 0, updated_at := 0, additional_data := none }
      .exn 7 rfl rfl).1 (by decide)

/-- C7: read-with-refresh on a payment stored in a terminal status performs no
gateway query and no storage write, and hands back the stored row converted
field-for-field (id, order_id, amount, status, payment_url, created_at,
updated_at, metadata all come straight from the row). -/
theorem get_payment_terminal_frame (db : List PaymentRecord) (pid : String)
    (p : PaymentRecord) (resp : GatewayStatusResp) (now : Nat)
    (hp : DatabaseAdapter.get_payment db pid = some p)
    (hterm : p.status = .SUCCESS ∨ p.status = .FAILED ∨ p.status = .CANCELED ∨
             p.status = .EXPIRED ∨ p.status = .REFUNDED) :
    PaymentService.get_payment db pid resp now =
      ⟨some (DatabaseAdapter.record_to_response p), db, false, false⟩
  ∧ (DatabaseAdapter.record_to_response p).id = p.payment_id
  ∧ (DatabaseAdapter.record_to_response p).order_id = p.order_id
  ∧ (DatabaseAdapter.record_to_response p).amount = p.amount
  ∧ (DatabaseAdapter.record_to_response p).status = p.status
  ∧ (DatabaseAdapter.record_to_response p).payment_url = p.payment_url
  ∧ (DatabaseAdapter.record_to_response p).created_at = p.created_at
  ∧ (DatabaseAdapter.record_to_response p).updated_at = p.updated_at
  ∧ (DatabaseAdapter.record_to_response p).metadata = p.additional_data := by
  refine ⟨?_, rfl, rfl, rfl, rfl, rfl, rfl, rfl, rfl⟩
  unfold PaymentService.get_payment
  rw [hp]
  dsimp only
  rw [if_neg (by rcases hterm with h | h | h | h | h <;> simp [h])]

/-- Concrete instance of C7 on a CANCELED payment. -/
theorem get_payment_terminal_frame_witness :
    PaymentService.get_payment
      [{ payment_id := "p6", order_id := "O6", status := .CANCELED,
         amount := 10, transaction_time := 0, payment_url := some "u",
         created_at := 0, updated_at := 2, additional_data := some "m" }]
      "p6" (.ok (some "settlement") none) 9 =
      ⟨some { id := "p6", order_id := "O6", transaction_id := "p6",
              amount := 10, status := .CANCELED, payment_url := some "u",
              created_at := 0, updated_at := 2, metadata := some "m" },
       [{ payment_id := "p6", order_id := "O6", status := .CANCELED,
          amount := 10, transaction_time := 0, payment_url := some "u",
          created_at := 0, updated_at := 2, additional_data := some "m" }],
       false, false⟩ :=
  (get_payment_terminal_frame
    [{ payment_id := "p6", order_id := "O6", status := .CANCELED,
       amount := 10, transaction_time := 0, payment_url := some "u",
       created_at := 0, updated_at := 2, additional_data := some "m" }] "p6"
    { payment_id := "p6", order_id := "O6", status := .CANCELED,
      amount := 10, transaction_time := 0, payment_url := some "u",
      created_at := 0, updated_at := 2, additional_data := some "m" }
    (.ok (some "settlement") none) 9 rfl
    (by decide)).1

/-- C8: a webhook processed with verification on, whose signature_key does not
equal the SHA-512 hex digest of order_id + status_code + gross_amount +
server_key (in particular when signature_key is absent, the shape a
computation failure takes in this embedding — the source maps any exception
to verification failure, never an error), ends in the unauthorized outcome
with no storage read, no write, and the store untouched. -/
theorem webhook_bad_signature_unauthorized (sha512hex : String → String)
    (server_key : String) (nd : NotifPayload) (db : List PaymentRecord)
    (now : Nat)
    (hsig : nd.signature_key ≠ some (sha512hex
      (pyStr nd.order_id ++ pyStr nd.status_code ++ pyStr nd.gross_amount ++
        server_key))) :
    WebhookHandler.process_webhook sha512hex server_key nd db true now =
      ⟨.unauthorized, db, false, false⟩ := by
  have hv : WebhookHandler.verify_signature sha512hex server_key nd = false := by
    unfold WebhookHandler.verify_signature
    dsimp only
    cases hk : nd.signature_key with
    | none => rfl
    | some k =>
      dsimp only
      apply decide_eq_false
      intro he
      exact hsig (by rw [hk, he])
  unfold WebhookHandler.process_webhook
  rw [if_pos ⟨rfl, by simp [hv]⟩]

/-- Concrete instance of C8: a mismatched signature_key is rejected without
touching the store. -/
theorem webhook_bad_signature_unauthorized_witness :
    WebhookHandler.process_webhook (fun _ => "expected") "k"
      { transaction_id := some "t8", order_id := some "O8",
        transaction_status := some "settlement", gross_amount := some "5",
        payment_type := some "qris", fraud_status := none,
        status_code := some "200", signature_key := some "forged" }
      [{ payment_id := "p8", order_id := "O8", status := .PENDING,
         amount := 5, transaction_time := 0, payment_url := none,
         created_at := 0, updated_at := 0, additional_data := none }] true 4 =
      ⟨.unauthorized,
       [{ payment_id := "p8", order_id := "O8", status := .PENDING,
          amount := 5, transaction_time := 0, payment_url := none,
          created_at := 0, updated_at := 0, additional_data := none }],
       false, false⟩ :=
  webhook_bad_signature_unauthorized (fun _ => "expected") "k"
    { transaction_id := some "t8", order_id := some "O8",
      transaction_status := some "settlement", gross_amount := some "5",
      payment_type := some "qris", fraud_status := none,
      status_code := some "200", signature_key := some "forged" }
    [{ payment_id := "p8", order_id := "O8", status := .PENDING,
       amount := 5, transaction_time := 0, payment_url := none,
       created_at := 0, updated_at := 0, additional_data := none }] 4
    (by decide)

/-- C9: notification processing is idempotent.  With a verified, well-formed
payload whose mapped status differs from the newest stored payment's status,
the first application performs exactly one status write (setting the newest
payment's status and `updated_at`), and the second application of the very
same payload finds the stored status already equal to the notified status,
performs no write, leaves the store exactly as the first application left it,
and returns the success outcome. -/
theorem webhook_notification_idempotent (sha512hex : String → String)
    (server_key : String) (nd : NotifPayload) (db : List PaymentRecord)
    (now1 now2 : Nat) (p : PaymentRecord) (rest : List PaymentRecord)
    (hverify : WebhookHandler.verify_signature sha512hex server_key nd = true)
    (hparse : WebhookHandler.parse_notification nd = .ok ())
    (hps : DatabaseAdapter.get_payments_by_order db (nd.order_id.getD "") =
      p :: rest)
    (hdiff : p.status ≠ WebhookHandler.map_status_to_payment_status
      (nd.transaction_status.getD "") nd.fraud_status) :
    WebhookHandler.process_webhook sha512hex server_key nd db true now1 =
      ⟨.success p.payment_id p.status
         (WebhookHandler.map_status_to_payment_status
           (nd.transaction_status.getD "") nd.fraud_status),
       db.map (DatabaseAdapter.applyStatusUpdate p.payment_id
         (WebhookHandler.map_status_to_payment_status
           (nd.transaction_status.getD "") nd.fraud_status) now1),
       true, true⟩
  ∧ WebhookHandler.process_webhook sha512hex server_key nd
      (db.map (DatabaseAdapter.applyStatusUpdate p.payment_id
        (WebhookHandler.map_status_to_payment_status
          (nd.transaction_status.getD "") nd.fraud_status) now1)) true now2 =
      ⟨.success p.payment_id
         (WebhookHandler.map_status_to_payment_status
           (nd.transaction_status.getD "") nd.fraud_status)
         (WebhookHandler.map_status_to_payment_status
           (nd.transaction_status.getD "") nd.fraud_status),
       db.map (DatabaseAdapter.applyStatusUpdate p.payment_id
         (WebhookHandler.map_status_to_payment_status
           (nd.transaction_status.getD "") nd.fraud_status) now1),
       true, false⟩ := by
  have hpmem : p ∈ db :=
    (head_get_payments_mem db (nd.order_id.getD "") p rest hps).1
  have hsome : (db.find? (·.payment_id = p.payment_id)).isSome = true := by
    rw [List.find?_isSome]
    exact ⟨p, hpmem, by simp⟩
  constructor
  · unfold WebhookHandler.process_webhook
    rw [if_neg (by simp [hverify])]
    rw [hparse]
    dsimp only
    rw [hps]
    dsimp only
    rw [if_pos hdiff]
    unfold DatabaseAdapter.update_payment_status
    rw [if_pos hsome]
  · unfold WebhookHandler.process_webhook
    rw [if_neg (by simp [hverify])]
    rw [hparse]
    dsimp only
    rw [get_payments_by_order_update, hps]
    simp only [List.map_cons]
    have hfp : DatabaseAdapter.applyStatusUpdate p.payment_id
        (WebhookHandler.map_status_to_payment_status
          (nd.transaction_status.getD "") nd.fraud_status) now1 p =
        { p with
          status := (WebhookHandler.map_status_to_payment_status
            (nd.transaction_status.getD "") nd.fraud_status),
          updated_at := now1 } := by
      unfold DatabaseAdapter.applyStatusUpdate
      rw [if_pos rfl]
    rw [hfp]
    dsimp only
    rw [if_neg (by simp)]

/-- Concrete instance of C9: a signed "settlement" webhook moves the stored
PENDING payment to SUCCESS once; replaying it writes nothing and reports
success again. -/
theorem webhook_notification_idempotent_witness :
    WebhookHandler.process_webhook (fun _ => "s") "k"
      { transaction_id := some "t7", order_id := some "O7",
        transaction_status := some "settlement", gross_amount := some "5",
        payment_type := some "qris", fraud_status := none,
        status_code := some "200", signature_key := some "s" }
      [{ payment_id := "p7", order_id := "O7", status := .PENDING,
         amount := 5, transaction_time := 0, payment_url := none,
         created_at := 0, updated_at := 0, additional_data := none }] true 3 =
      ⟨.success "p7" .PENDING .SUCCESS,
       List.map (DatabaseAdapter.applyStatusUpdate "p7" .SUCCESS 3)
         [{ payment_id := "p7", order_id := "O7", status := .PENDING,
            amount := 5, transaction_time := 0, payment_url := none,
            created_at := 0, updated_at := 0, additional_data := none }],
       true, true⟩
  ∧ WebhookHandler.process_webhook (fun _ => "s") "k"
      { transaction_id := some "t7", order_id := some "O7",
        transaction_status := some "settlement", gross_amount := some "5",
        payment_type := some "qris", fraud_status := none,
        status_code := some "200", signature_key := some "s" }
      (List.map (DatabaseAdapter.applyStatusUpdate "p7" .SUCCESS 3)
        [{ payment_id := "p7", order_id := "O7", status := .PENDING,
           amount := 5, transaction_time := 0, payment_url := none,
           created_at := 0, updated_at := 0, additional_data := none }])
      true 4 =
      ⟨.success "p7" .SUCCESS .SUCCESS,
       List.map (DatabaseAdapter.applyStatusUpdate "p7" .SUCCESS 3)
         [{ payment_id := "p7", order_id := "O7", status := .PENDING,
            amount := 5, transaction_time := 0, payment_url := none,
            created_at := 0, updated_at := 0, additional_data := none }],
       true, false⟩ :=
  webhook_notification_idempotent (fun _ => "s") "k"
    { transaction_id := some "t7", order_id := some "O7",
      transaction_status := some "settlement", gross_amount := some "5",
      payment_type := some "qris", fraud_status := none,
      status_code := some "200", signature_key := some "s" }
    [{ payment_id := "p7", order_id := "O7", status := .PENDING,
       amount := 5, transaction_time := 0, payment_url := none,
       created_at := 0, updated_at := 0, additional_data := none }] 3 4
    { payment_id := "p7", order_id := "O7", status := .PENDING,
      amount := 5, transaction_time := 0, payment_url := none,
      created_at := 0, updated_at := 0, additional_data := none } []
    (by decide) rfl (by decide) (by decide)

/-- C10 (implicit behaviour, proved as stated): force-check on a payment
whose stored status is not PENDING, while the gateway query fails, persists
PENDING over the stored status and returns PENDING — the port degrades every
failure to PENDING and the service writes any status that differs. -/
theorem force_check_gateway_failure_overwrites_pending
    (db : List PaymentRecord) (pid : String) (p : PaymentRecord)
    (resp : GatewayStatusResp) (now : Nat)
    (hp : DatabaseAdapter.get_payment db pid = some p)
    (hfail : resp.isFailure = true) (hnp : p.status ≠ .PENDING) :
    PaymentService.get_payment_status db pid resp now =
      ⟨.ok .PENDING,
       db.map (DatabaseAdapter.applyStatusUpdate pid .PENDING now)⟩ := by
  have hlatest : MidtransAdapter.get_payment_status resp = .PENDING := by
    cases resp with
    | ok ts fs => simp [GatewayStatusResp.isFailure] at hfail
    | httpError c => rfl
    | exn => rfl
  have hsome : (db.find? (·.payment_id = pid)).isSome = true := by
    unfold DatabaseAdapter.get_payment at hp
    simp [hp]
  unfold PaymentService.get_payment_status
  rw [hp]
  dsimp only
  rw [hlatest]
  rw [if_pos (fun h => hnp h.symm)]
  unfold DatabaseAdapter.update_payment_status
  rw [if_pos hsome]

/-- Concrete instance of C10: a gateway exception during force-check knocks a
stored SUCCESS payment back to PENDING. -/
theorem force_check_gateway_failure_overwrites_pending_witness :
    PaymentService.get_payment_status
      [{ payment_id := "p9", order_id := "O9", status := .SUCCESS,
         amount := 5, transaction_time := 0, payment_url := none,
         created_at := 0, updated_at := 0, additional_data := none }]
      "p9" .exn 6 =
      ⟨.ok .PENDING,
       List.map (DatabaseAdapter.applyStatusUpdate "p9" .PENDING 6)
         [{ payment_id := "p9", order_id := "O9", status := .SUCCESS,
            amount := 5, transaction_time := 0, payment_url := none,
            created_at := 0, updated_at := 0, additional_data := none }]⟩ :=
  force_check_gateway_failure_overwrites_pending
    [{ payment_id := "p9", order_id := "O9", status := .SUCCESS,
       amount := 5, transaction_time := 0, payment_url := none,
       created_at := 0, updated_at := 0, additional_data := none }] "p9"
    { payment_id := "p9", order_id := "O9", status := .SUCCESS,
      amount := 5, transaction_time := 0, payment_url := none,
      created_at := 0, updated_at := 0, additional_data := none }
    .exn 6 rfl rfl (by decide)


